import Mathlib

/-!
Verification of the conversion-routing core of the convert_mcp_server
repository (src/main.py): registry lookup, format normalization, the REST
adapter `convert_file` (POST /convert), the MCP adapter `handle_convert_file`
(tools/call convert_file), the tool catalog (tools/list) and the bearer-token
validation endpoint (POST /mcp/validate).

External effects (base64 codec, temporary-file creation, the converter
modules own `convert` calls, reading the staged output back) are modelled by
an environment record `Env` of oracles; the handlers are translated
control-flow-faithfully from the Python source, returning both the wire-level
outcome and the observable side effects: which effectful operations were
attempted and whether the temporary staging files created by the call still
exist when the call returns.
-/

namespace Conv

/-- A converter module as the registry sees it: a name plus its capability
descriptor `SUPPORTED_FORMATS = \x7b input: [...], output: [...] \x7d`
(src/main.py lines 82-87, 176-180, 296-300). -/
structure Module where
  name : String
  inputs : List String
  outputs : List String
deriving DecidableEq

/-- Python `s.startswith(p)` on our string model. -/
def strStartsWith (s p : String) : Bool :=
  p.data.isPrefixOf s.data

/-- Python `"sub" in s` substring test. -/
def strContains (s sub : String) : Bool :=
  decide (sub.data <:+: s.data)

/-- The dot-normalization applied to the MCP `input_format`/`output_format`
arguments (src/main.py lines 169-172) and to the REST `output_format` form
field (lines 288-289): prepend a dot when the token does not already start
with one.  Note: no lowercasing happens here. -/
def ensureDot (s : String) : String :=
  if strStartsWith s "." then s else "." ++ s

/-- Python `s.lower()` (ASCII case folding suffices for format tokens). -/
def lowerStr (s : String) : String :=
  ⟨s.data.map Char.toLower⟩

/-- Index of the last occurrence of `c` in `l`, mirroring Python `s.rfind(c)`
(`none` plays the role of -1). -/
def rfindIdx (l : List Char) (c : Char) : Option Nat :=
  match l with
  | [] => none
  | a :: rest =>
    match rfindIdx rest c with
    | some i => some (i + 1)
    | none => if a = c then some 0 else none

/-- `os.path.splitext` (posixpath): split at the last dot that lies after the
last path separator and after at least one non-dot character of the base
name; otherwise the extension is empty. -/
def splitext (p : String) : String × String :=
  match rfindIdx p.data '.' with
  | none => (p, "")
  | some dotIndex =>
    let start : Nat :=
      match rfindIdx p.data '/' with
      | none => 0
      | some s => s + 1
    if start ≤ dotIndex then
      if ((p.data.drop start).take (dotIndex - start)).all (fun c => c = '.') then
        (p, "")
      else
        (⟨p.data.take dotIndex⟩, ⟨p.data.drop dotIndex⟩)
    else (p, "")

/-- The REST adapters input-format derivation
`os.path.splitext(file.filename)[1].lower()` (src/main.py line 292). -/
def restInputFormat (filename : String) : String :=
  lowerStr (splitext filename).2

/-- Python truthiness of an optional string argument, as used by
`if not all([input_format, output_format, file_content])`
(src/main.py line 162): absent or empty means falsy. -/
def truthy : Option String → Bool
  | none => false
  | some s => s != ""

/-- The first-match module lookup loop shared by both adapters
(src/main.py lines 175-180 and 295-300). -/
def findConverter (input_format output_format : String) : List Module → Option Module
  | [] => none
  | m :: rest =>
    if input_format ∈ m.inputs ∧ output_format ∈ m.outputs then some m
    else findConverter input_format output_format rest

/-- Observable effectful operations a dispatch may attempt, in order. -/
inductive Effect where
  | decodeAttempt
  | stageInput
  | stageOutput
  | convertCall (moduleName : String)
deriving DecidableEq

/-- Outcome of one temporary-file staging step: success, failure before the
file exists, or failure after the file was already created (the message is
the raised exception text). -/
inductive StageOutcome where
  | ok
  | failNoCreate (msg : String)
  | failAfterCreate (msg : String)
deriving DecidableEq

/-- Oracles for the external collaborators of one dispatch: the base64
codec, the temporary-file names the OS hands out, the two staging steps,
the resolved modules `convert` call (`some msg` means it raised `msg`) and
the read-back of the staged output file. -/
structure Env where
  b64decode : String → Option (List Nat)
  b64encode : List Nat → String
  inputTempName : String
  outputTempName : String
  stageInput : StageOutcome
  stageOutput : StageOutcome
  convertResult : Option String
  readResult : Except String (List Nat)

/-- Wire-level outcome of the MCP tool call: a result payload or a JSON-RPC
error object. -/
inductive MCPOut where
  | ok (text : String)
  | err (code : Int) (msg : String)
deriving DecidableEq

/-- Full observable behaviour of one MCP `convert_file` tool call. -/
structure MCPResult where
  out : MCPOut
  effects : List Effect
  inputTempExists : Bool
  outputTempExists : Bool
deriving DecidableEq

/-- The MCP `tools/call convert_file` handler `handle_convert_file`
(src/main.py lines 153-237), translated branch by branch.  The outer
`except` wraps the whole body; the `finally` at lines 226-231 removes both
staging files, but it guards only the region after both files were created,
so a staging failure that raises after a file exists leaks that file. -/
def handle_convert_file (env : Env) (registry : List Module)
    (input_format_arg output_format_arg file_content_arg : Option String) : MCPResult :=
  if !(truthy input_format_arg && truthy output_format_arg && truthy file_content_arg) then
    ⟨.err (-32602) "Missing required parameters", [], false, false⟩
  else
    let input_format := ensureDot (input_format_arg.getD "")
    let output_format := ensureDot (output_format_arg.getD "")
    match findConverter input_format output_format registry with
    | none =>
      ⟨.err (-32602) ("Conversion from " ++ input_format ++ " to " ++ output_format ++ " not supported"),
       [], false, false⟩
    | some m =>
      match env.b64decode (file_content_arg.getD "") with
      | none =>
        ⟨.err (-32602) "Invalid base64 file content", [.decodeAttempt], false, false⟩
      | some _file_data =>
        match env.stageInput with
        | .failNoCreate msg =>
          ⟨.err (-32603) ("Conversion failed: " ++ msg), [.decodeAttempt, .stageInput], false, false⟩
        | .failAfterCreate msg =>
          ⟨.err (-32603) ("Conversion failed: " ++ msg), [.decodeAttempt, .stageInput], true, false⟩
        | .ok =>
          match env.stageOutput with
          | .failNoCreate msg =>
            ⟨.err (-32603) ("Conversion failed: " ++ msg),
             [.decodeAttempt, .stageInput, .stageOutput], true, false⟩
          | .failAfterCreate msg =>
            ⟨.err (-32603) ("Conversion failed: " ++ msg),
             [.decodeAttempt, .stageInput, .stageOutput], true, true⟩
          | .ok =>
            match env.convertResult with
            | some msg =>
              ⟨.err (-32603) ("Conversion failed: " ++ msg),
               [.decodeAttempt, .stageInput, .stageOutput, .convertCall m.name], false, false⟩
            | none =>
              match env.readResult with
              | .error msg =>
                ⟨.err (-32603) ("Conversion failed: " ++ msg),
                 [.decodeAttempt, .stageInput, .stageOutput, .convertCall m.name], false, false⟩
              | .ok outBytes =>
                ⟨.ok ("File converted successfully from " ++ input_format ++ " to " ++ output_format ++
                      ". Converted file content (base64): " ++ env.b64encode outBytes),
                 [.decodeAttempt, .stageInput, .stageOutput, .convertCall m.name], false, false⟩

/-- Wire-level outcome of the REST POST /convert handler: a FileResponse,
an HTTPException, or an exception that escapes the handler (which the
framework surfaces as a 500 server error). -/
inductive RestOut where
  | fileResponse (path : String) (filename : String) (mediaType : String)
  | httpError (status : Nat) (detail : String)
  | uncaught (msg : String)
deriving DecidableEq

/-- Full observable behaviour of one REST POST /convert call. -/
structure RestResult where
  out : RestOut
  effects : List Effect
  inputTempExists : Bool
  outputTempExists : Bool
deriving DecidableEq

/-- The REST `convert_file` handler (src/main.py lines 278-334), translated
branch by branch.  Staging happens outside any try block, so a staging
failure escapes the handler; the `finally` at lines 331-334 removes only the
input staging file, so the output staging file survives the call both on
success (it backs the FileResponse) and on conversion failure. -/
def convert_file (env : Env) (registry : List Module)
    (filename : String) (output_format_field : String) : RestResult :=
  if output_format_field = "" then
    ⟨.httpError 400 "output_format is required", [], false, false⟩
  else
    let output_format := ensureDot output_format_field
    let input_format := restInputFormat filename
    match findConverter input_format output_format registry with
    | none =>
      ⟨.httpError 400 ("Conversion from " ++ input_format ++ " to " ++ output_format ++ " not supported"),
       [], false, false⟩
    | some m =>
      match env.stageInput with
      | .failNoCreate msg => ⟨.uncaught msg, [.stageInput], false, false⟩
      | .failAfterCreate msg => ⟨.uncaught msg, [.stageInput], true, false⟩
      | .ok =>
        let output_filename := (splitext filename).1 ++ output_format
        match env.stageOutput with
        | .failNoCreate msg => ⟨.uncaught msg, [.stageInput, .stageOutput], true, false⟩
        | .failAfterCreate msg => ⟨.uncaught msg, [.stageInput, .stageOutput], true, true⟩
        | .ok =>
          match env.convertResult with
          | some msg =>
            ⟨.httpError 500 ("Conversion failed: " ++ msg),
             [.stageInput, .stageOutput, .convertCall m.name], false, true⟩
          | none =>
            ⟨.fileResponse env.outputTempName output_filename "application/octet-stream",
             [.stageInput, .stageOutput, .convertCall m.name], false, true⟩

/-- The conversion-pair enumeration built by the tools/list branch
(src/main.py lines 81-87): every (input, output) pair over every registered
module, skipping same-to-same pairs, in iteration order. -/
def supported_conversions (mods : List Module) : List String :=
  mods.flatMap fun m =>
    m.inputs.flatMap fun i =>
      m.outputs.filterMap fun o =>
        if i ≠ o then some (i ++ " to " ++ o) else none

/-- Python `sep.join(xs)`. -/
def joinStr (sep : String) : List String → String
  | [] => ""
  | [x] => x
  | x :: y :: xs => x ++ sep ++ joinStr sep (y :: xs)

/-- The dynamically built description of the convert_file tool
(src/main.py line 91). -/
def convert_file_description (mods : List Module) : String :=
  "Convert files between different formats. Supported conversions: " ++
    joinStr ", " (supported_conversions mods)

/-- One entry of the tools/list catalog (name and description only; the
input schema is static). -/
structure Tool where
  name : String
  description : String
deriving DecidableEq

/-- The tool catalog returned by method tools/list
(src/main.py lines 77-125). -/
def tools_list (mods : List Module) : List Tool :=
  [⟨"convert_file", convert_file_description mods⟩,
   ⟨"list_supported_formats", "List all supported input and output formats"⟩]

/-- Python `s.replace("Bearer ", "")`: remove every (leftmost,
non-overlapping) occurrence of the seven-character pattern. -/
def replaceBearerAll : List Char → List Char
  | 'B' :: 'e' :: 'a' :: 'r' :: 'e' :: 'r' :: ' ' :: rest => replaceBearerAll rest
  | c :: rest => c :: replaceBearerAll rest
  | [] => []

/-- The POST /mcp/validate handler (src/main.py lines 44-55).  The header is
required: an absent header is rejected by request validation with status 422
before the handler runs.  When the header starts with "Bearer ", the code
removes every occurrence of "Bearer " (str.replace replaces all, not just
the prefix); a non-empty remainder yields 200 with the demo identity,
otherwise 401. -/
def validate_token (authorization : Option String) : Nat × Option String :=
  match authorization with
  | none => (422, none)
  | some bearer_token =>
    let token : List Char :=
      if strStartsWith bearer_token "Bearer " then replaceBearerAll bearer_token.data
      else bearer_token.data
    if token ≠ [] then (200, some "919876543210") else (401, none)

/-- The credential that remains after the handlers Bearer stripping step,
as a string (helper for stating the amended claim C9). -/
def stripAllBearer (h : String) : String :=
  if strStartsWith h "Bearer " then ⟨replaceBearerAll h.data⟩ else h

/-- Severity class of a wire-level outcome: client-caused or server-caused. -/
inductive Severity where
  | client
  | server
deriving DecidableEq

/-- Severity of a REST outcome: 4xx HTTPExceptions are client errors, 5xx
are server errors, and an exception escaping the handler is surfaced by the
framework as a 500 server error.  Successes have no severity. -/
def restSeverity : RestOut → Option Severity
  | .fileResponse _ _ _ => none
  | .httpError status _ => some (if 500 ≤ status then .server else .client)
  | .uncaught _ => some .server

/-- Severity of an MCP outcome: JSON-RPC code -32603 (InternalError) is a
server error, the other codes used by the handler (-32602 InvalidParams)
are client errors. -/
def mcpSeverity : MCPOut → Option Severity
  | .ok _ => none
  | .err code _ => some (if code = -32603 then .server else .client)

/-- The single demo module of the end-to-end scenarios: capability
descriptor input [.png], output [.jpg]. -/
def demoModule : Module :=
  ⟨"image_converter", [".png"], [".jpg"]⟩

/-- A one-module registry for the end-to-end scenarios. -/
def demoRegistry : List Module :=
  [demoModule]

/-- A concrete all-succeeding environment for witnesses. -/
def envOK : Env :=
  ⟨fun _ => some [66], fun _ => "Qg==", "/tmp/in", "/tmp/out",
   StageOutcome.ok, StageOutcome.ok, none, Except.ok [66]⟩

/-- A concrete environment whose base64 decoding always fails. -/
def envBadB64 : Env :=
  ⟨fun _ => none, fun _ => "Qg==", "/tmp/in", "/tmp/out",
   StageOutcome.ok, StageOutcome.ok, none, Except.ok [66]⟩

/-- A concrete environment whose input staging step raises before the file
is created (for example, disk full at tempfile creation). -/
def envStageFail : Env :=
  ⟨fun _ => some [66], fun _ => "Qg==", "/tmp/in", "/tmp/out",
   StageOutcome.failNoCreate "disk full", StageOutcome.ok, none, Except.ok [66]⟩

end Conv

namespace Conv

/-! Helper lemmas shared by several claims. -/

theorem strData_append (a b : String) : (a ++ b).data = a.data ++ b.data := by
  cases a; cases b; rfl

theorem str_eq_empty_iff (s : String) : s = "" ↔ s.data = [] := by
  rw [String.ext_iff]

theorem strMk_eq_empty_iff (l : List Char) : (⟨l⟩ : String) = "" ↔ l = [] := by
  rw [String.ext_iff]

theorem ne_empty_of_dot (s : String) (h : strStartsWith s "." = true) : s ≠ "" := by
  intro he
  rw [he] at h
  exact absurd h (by decide)

theorem ensureDot_of_dot (s : String) (h : strStartsWith s "." = true) : ensureDot s = s := by
  simp [ensureDot, h]

theorem dot_append_startsWith (x : String) : strStartsWith ("." ++ x) "." = true := by
  cases x with
  | mk l => simp [strStartsWith]

/-- Claim C2: converter lookup scans the registered modules in registration
order and selects the first module whose capability descriptor contains the
input format in its inputs and the output format in its outputs; if no
registered module qualifies, the lookup yields none. -/
theorem findConverter_spec (fin fout : String) (mods : List Module) :
    findConverter fin fout mods
        = mods.find? (fun m => decide (fin ∈ m.inputs ∧ fout ∈ m.outputs))
    ∧ (findConverter fin fout mods = none ↔
        ∀ m ∈ mods, ¬(fin ∈ m.inputs ∧ fout ∈ m.outputs))
    ∧ ∀ m, findConverter fin fout mods = some m →
        (fin ∈ m.inputs ∧ fout ∈ m.outputs)
        ∧ ∃ pre suf, mods = pre ++ m :: suf
            ∧ ∀ m2 ∈ pre, ¬(fin ∈ m2.inputs ∧ fout ∈ m2.outputs) := by
  induction mods with
  | nil => simp [findConverter]
  | cons a rest ih =>
    by_cases h : fin ∈ a.inputs ∧ fout ∈ a.outputs
    · refine ⟨?_, ?_, ?_⟩
      · rw [List.find?_cons_of_pos _ (by simpa using h)]
        simp [findConverter, h]
      · simp [findConverter, h]
      · intro m hm
        simp only [findConverter, if_pos h, Option.some.injEq] at hm
        subst hm
        exact ⟨h, [], rest, rfl, by simp⟩
    · have hstep : findConverter fin fout (a :: rest) = findConverter fin fout rest := by
        simp [findConverter, h]
      refine ⟨?_, ?_, ?_⟩
      · rw [hstep, List.find?_cons_of_neg _ (by simpa using h), ih.1]
      · rw [hstep, ih.2.1]
        constructor
        · intro hall m hm
          rcases List.mem_cons.mp hm with rfl | hm2
          · exact h
          · exact hall m hm2
        · intro hall m hm
          exact hall m (List.mem_cons_of_mem _ hm)
      · intro m hm
        rw [hstep] at hm
        obtain ⟨hq, pre, suf, hsplit, hpre⟩ := ih.2.2 m hm
        refine ⟨hq, a :: pre, suf, by simp [hsplit], ?_⟩
        intro m2 hm2
        rcases List.mem_cons.mp hm2 with rfl | hm3
        · exact h
        · exact hpre m2 hm3

/-- Claim C2 witness: on the demo registry the lookup for (.png, .jpg)
returns the demo module, which qualifies and has no qualifying predecessor. -/
theorem findConverter_spec_witness :
    (".png" ∈ demoModule.inputs ∧ ".jpg" ∈ demoModule.outputs)
    ∧ ∃ pre suf, demoRegistry = pre ++ demoModule :: suf
        ∧ ∀ m2 ∈ pre, ¬(".png" ∈ m2.inputs ∧ ".jpg" ∈ m2.outputs) :=
  (findConverter_spec ".png" ".jpg" demoRegistry).2.2 demoModule (by decide)

set_option maxRecDepth 8000 in
/-- Claim C3 counterexample: the normalization applied at the MCP boundary
(and to the REST output_format field) does not lowercase, so
normalize(".PNG") is ".PNG", not ".png"; observably, a tools/call with
input_format ".PNG" is rejected as unsupported by a registry that supports
".png", while "png" is accepted. -/
theorem normalization_counterexample :
    ensureDot ".PNG" = ".PNG"
    ∧ (handle_convert_file envOK demoRegistry (some ".PNG") (some ".jpg") (some "AA==")).out
        = MCPOut.err (-32602) "Conversion from .PNG to .jpg not supported"
    ∧ (handle_convert_file envOK demoRegistry (some "png") (some ".jpg") (some "AA==")).out
        = MCPOut.ok "File converted successfully from .png to .jpg. Converted file content (base64): Qg==" := by
  decide

/-- Claim C3 (amended): the boundary normalization of the MCP format
arguments and of the REST output_format field only ensures a leading dot
(it is idempotent and maps "png" to ".png" but leaves ".PNG" unchanged);
only the REST filename-extension boundary also lowercases, mapping the
extension of "a.PNG" to ".png". -/
theorem normalization_amended (x : String) :
    ensureDot (ensureDot x) = ensureDot x
    ∧ ensureDot "png" = ".png"
    ∧ ensureDot ".PNG" = ".PNG"
    ∧ restInputFormat "a.PNG" = ".png" := by
  refine ⟨?_, by decide, by decide, by decide⟩
  by_cases h : strStartsWith x "." = true
  · simp [ensureDot, h]
  · simp [ensureDot, h, dot_append_startsWith]

end Conv

namespace Conv

set_option maxRecDepth 8000 in
/-- Claim C1 counterexample: on a fully successful REST POST /convert
dispatch, the output staging file still exists after the call returns (the
handler only unlinks the input file in its finally block), so the claimed
cleanup invariant fails on the REST success path. -/
theorem temp_cleanup_counterexample :
    (convert_file envOK demoRegistry "a.png" "jpg").out
        = RestOut.fileResponse "/tmp/out" "a.jpg" "application/octet-stream"
    ∧ (convert_file envOK demoRegistry "a.png" "jpg").outputTempExists = true := by
  decide

/-- Claim C1 (amended): on every exit path reached when both staging steps
succeed, the MCP handler removes both staging files before returning, while
the REST handler removes only the input staging file; the REST output
staging file still exists after the call returns exactly when staging was
reached (on success it backs the file response, and on conversion failure it
is never unlinked). -/
theorem temp_cleanup_amended (env : Env) (registry : List Module)
    (ifa ofa fca : Option String) (filename outfmt : String)
    (h1 : env.stageInput = StageOutcome.ok) (h2 : env.stageOutput = StageOutcome.ok) :
    ((handle_convert_file env registry ifa ofa fca).inputTempExists = false
      ∧ (handle_convert_file env registry ifa ofa fca).outputTempExists = false)
    ∧ ((convert_file env registry filename outfmt).inputTempExists = false
      ∧ ((convert_file env registry filename outfmt).outputTempExists = true
          ↔ Effect.stageOutput ∈ (convert_file env registry filename outfmt).effects)) := by
  constructor
  · simp only [handle_convert_file, h1, h2]
    split
    · simp
    · split
      · simp
      · split
        · simp
        · split
          · simp
          · split
            · simp
            · simp
  · simp only [convert_file, h1, h2]
    split
    · simp
    · split
      · simp
      · split
        · simp
        · simp

/-- Claim C1 witness: the amended cleanup facts at a concrete successful
dispatch on the demo registry. -/
theorem temp_cleanup_amended_witness :
    (handle_convert_file envOK demoRegistry (some "png") (some "jpg") (some "AA==")).inputTempExists = false
    ∧ (handle_convert_file envOK demoRegistry (some "png") (some "jpg") (some "AA==")).outputTempExists = false
    ∧ (convert_file envOK demoRegistry "a.png" "jpg").inputTempExists = false := by
  have h := temp_cleanup_amended envOK demoRegistry (some "png") (some "jpg") (some "AA==") "a.png" "jpg" rfl rfl
  exact ⟨h.1.1, h.1.2, h.2.1⟩

/-- Claim C4: dispatch of an unsupported pair fails with the
unsupported-conversion client error (HTTP 400 on REST, JSON-RPC -32602 on
MCP) and no effectful operation runs, in particular no modules convert
call is ever invoked. -/
theorem unsupported_no_convert (env : Env) (registry : List Module)
    (ifa ofa fca : String) (filename outfmt : String)
    (hia : ifa ≠ "") (hoa : ofa ≠ "") (hfa : fca ≠ "") (hout : outfmt ≠ "")
    (hm : findConverter (ensureDot ifa) (ensureDot ofa) registry = none)
    (hr : findConverter (restInputFormat filename) (ensureDot outfmt) registry = none) :
    handle_convert_file env registry (some ifa) (some ofa) (some fca)
        = ⟨MCPOut.err (-32602) ("Conversion from " ++ ensureDot ifa ++ " to " ++ ensureDot ofa ++ " not supported"),
           [], false, false⟩
    ∧ convert_file env registry filename outfmt
        = ⟨RestOut.httpError 400 ("Conversion from " ++ restInputFormat filename ++ " to " ++ ensureDot outfmt ++ " not supported"),
           [], false, false⟩
    ∧ (∀ n, Effect.convertCall n ∉ (handle_convert_file env registry (some ifa) (some ofa) (some fca)).effects)
    ∧ (∀ n, Effect.convertCall n ∉ (convert_file env registry filename outfmt).effects) := by
  have e1 : handle_convert_file env registry (some ifa) (some ofa) (some fca)
      = ⟨MCPOut.err (-32602) ("Conversion from " ++ ensureDot ifa ++ " to " ++ ensureDot ofa ++ " not supported"),
         [], false, false⟩ := by
    simp [handle_convert_file, truthy, hia, hoa, hfa, hm]
  have e2 : convert_file env registry filename outfmt
      = ⟨RestOut.httpError 400 ("Conversion from " ++ restInputFormat filename ++ " to " ++ ensureDot outfmt ++ " not supported"),
         [], false, false⟩ := by
    simp [convert_file, hout, hr]
  refine ⟨e1, e2, ?_, ?_⟩
  · intro n
    rw [e1]
    simp
  · intro n
    rw [e2]
    simp

set_option maxRecDepth 8000 in
/-- Claim C4 witness: the unsupported pair (.gif, .jpg) on the demo registry,
through both adapters. -/
theorem unsupported_no_convert_witness :
    handle_convert_file envOK demoRegistry (some ".gif") (some ".jpg") (some "Qg==")
        = ⟨MCPOut.err (-32602) ("Conversion from " ++ ensureDot ".gif" ++ " to " ++ ensureDot ".jpg" ++ " not supported"),
           [], false, false⟩
    ∧ convert_file envOK demoRegistry "a.gif" "jpg"
        = ⟨RestOut.httpError 400 ("Conversion from " ++ restInputFormat "a.gif" ++ " to " ++ ensureDot "jpg" ++ " not supported"),
           [], false, false⟩ := by
  have h := unsupported_no_convert envOK demoRegistry ".gif" ".jpg" "Qg==" "a.gif" "jpg"
    (by decide) (by decide) (by decide) (by decide) (by decide) (by decide)
  exact ⟨h.1, h.2.1⟩

/-- Claim C6: an MCP convert_file call whose file_content does not base64
decode (all three arguments present and a module matching) returns
InvalidParams -32602 with the invalid-base64 message and performs no
filesystem staging: no staging effect runs and no temporary file exists
after the call. -/
theorem invalid_base64_no_staging (env : Env) (registry : List Module) (m : Module)
    (ifa ofa fca : String)
    (hia : ifa ≠ "") (hoa : ofa ≠ "") (hfa : fca ≠ "")
    (hfind : findConverter (ensureDot ifa) (ensureDot ofa) registry = some m)
    (hdec : env.b64decode fca = none) :
    handle_convert_file env registry (some ifa) (some ofa) (some fca)
      = ⟨MCPOut.err (-32602) "Invalid base64 file content", [Effect.decodeAttempt], false, false⟩ := by
  simp [handle_convert_file, truthy, hia, hoa, hfa, hfind, hdec]

set_option maxRecDepth 8000 in
/-- Claim C6 witness: a concrete call with an always-failing decoder. -/
theorem invalid_base64_no_staging_witness :
    handle_convert_file envBadB64 demoRegistry (some "png") (some "jpg") (some "%%%")
      = ⟨MCPOut.err (-32602) "Invalid base64 file content", [Effect.decodeAttempt], false, false⟩ :=
  invalid_base64_no_staging envBadB64 demoRegistry demoModule "png" "jpg" "%%%"
    (by decide) (by decide) (by decide) (by decide) rfl

/-- Claim C10: in the MCP handler, module lookup precedes base64 decoding:
an unsupported pair yields the unsupported-conversion error for every
environment, in particular also when decoding would fail, and the decode
step is never attempted. -/
theorem lookup_precedes_decode (env : Env) (registry : List Module)
    (ifa ofa fca : String)
    (hia : ifa ≠ "") (hoa : ofa ≠ "") (hfa : fca ≠ "")
    (hfind : findConverter (ensureDot ifa) (ensureDot ofa) registry = none) :
    handle_convert_file env registry (some ifa) (some ofa) (some fca)
        = ⟨MCPOut.err (-32602) ("Conversion from " ++ ensureDot ifa ++ " to " ++ ensureDot ofa ++ " not supported"),
           [], false, false⟩
    ∧ Effect.decodeAttempt ∉ (handle_convert_file env registry (some ifa) (some ofa) (some fca)).effects := by
  have e1 : handle_convert_file env registry (some ifa) (some ofa) (some fca)
      = ⟨MCPOut.err (-32602) ("Conversion from " ++ ensureDot ifa ++ " to " ++ ensureDot ofa ++ " not supported"),
         [], false, false⟩ := by
    simp [handle_convert_file, truthy, hia, hoa, hfa, hfind]
  refine ⟨e1, ?_⟩
  rw [e1]
  simp

set_option maxRecDepth 8000 in
/-- Claim C10 witness: an unsupported pair with an always-failing decoder
still yields the unsupported-conversion error and never attempts decoding. -/
theorem lookup_precedes_decode_witness :
    handle_convert_file envBadB64 demoRegistry (some ".bmp") (some ".jpg") (some "%%%")
        = ⟨MCPOut.err (-32602) ("Conversion from " ++ ensureDot ".bmp" ++ " to " ++ ensureDot ".jpg" ++ " not supported"),
           [], false, false⟩ := by
  have h := lookup_precedes_decode envBadB64 demoRegistry ".bmp" ".jpg" "%%%"
    (by decide) (by decide) (by decide) (by decide)
  exact h.1

end Conv

namespace Conv

set_option maxRecDepth 8000 in
/-- Claim C5 counterexample: with an environment whose input staging step
raises, the REST handler does not produce an HTTPException 500 with a
detail body: staging sits outside the try block, so the exception escapes
the handler (the uncaught outcome, surfaced by the framework as a generic
500 without a handler-produced detail body), while the MCP handler does
map the same failure to JSON-RPC -32603. -/
theorem error_severity_counterexample :
    (convert_file envStageFail demoRegistry "a.png" "jpg").out
        = RestOut.uncaught "disk full"
    ∧ (convert_file envStageFail demoRegistry "a.png" "jpg").out
        ≠ RestOut.httpError 500 "disk full"
    ∧ (convert_file envStageFail demoRegistry "a.png" "jpg").out
        ≠ RestOut.httpError 500 "Conversion failed: disk full"
    ∧ (handle_convert_file envStageFail demoRegistry (some ".png") (some "jpg") (some "Qg==")).out
        = MCPOut.err (-32603) "Conversion failed: disk full" := by
  decide

/-- Claim C5 (amended): both adapters map the same dispatcher failure kinds
to the same severity class.  With matching requests on both surfaces (same
normalized formats, decodable payload, readable output), the severity of
the MCP outcome always equals the severity of the REST outcome; a
conversion failure surfaces as HTTP 500 with the detail message on REST and
as JSON-RPC -32603 on MCP; a staging failure surfaces as -32603 on MCP,
while on REST the staging exception escapes the handler and is surfaced by
the framework as a generic 500 server error rather than a handler-produced
detail body; an unsupported pair surfaces as HTTP 400 and -32602, and a
malformed parameter (empty output_format on REST, missing argument on MCP)
as HTTP 400 and -32602. -/
theorem error_severity_parity (env : Env) (registry : List Module)
    (filename ofmt fc ext : String) (bs bs2 : List Nat)
    (hext : restInputFormat filename = ext)
    (hdot : strStartsWith ext "." = true)
    (hofmt : ofmt ≠ "") (hfc : fc ≠ "")
    (hdec : env.b64decode fc = some bs)
    (hread : env.readResult = Except.ok bs2) :
    mcpSeverity (handle_convert_file env registry (some ext) (some ofmt) (some fc)).out
        = restSeverity (convert_file env registry filename ofmt).out
    ∧ (∀ msg m, env.convertResult = some msg →
        findConverter ext (ensureDot ofmt) registry = some m →
        env.stageInput = StageOutcome.ok → env.stageOutput = StageOutcome.ok →
        (convert_file env registry filename ofmt).out
            = RestOut.httpError 500 ("Conversion failed: " ++ msg)
        ∧ (handle_convert_file env registry (some ext) (some ofmt) (some fc)).out
            = MCPOut.err (-32603) ("Conversion failed: " ++ msg))
    ∧ (∀ msg m, env.stageInput = StageOutcome.failNoCreate msg →
        findConverter ext (ensureDot ofmt) registry = some m →
        (convert_file env registry filename ofmt).out = RestOut.uncaught msg
        ∧ restSeverity (convert_file env registry filename ofmt).out = some Severity.server
        ∧ (handle_convert_file env registry (some ext) (some ofmt) (some fc)).out
            = MCPOut.err (-32603) ("Conversion failed: " ++ msg))
    ∧ (findConverter ext (ensureDot ofmt) registry = none →
        (convert_file env registry filename ofmt).out
            = RestOut.httpError 400 ("Conversion from " ++ ext ++ " to " ++ ensureDot ofmt ++ " not supported")
        ∧ (handle_convert_file env registry (some ext) (some ofmt) (some fc)).out
            = MCPOut.err (-32602) ("Conversion from " ++ ext ++ " to " ++ ensureDot ofmt ++ " not supported"))
    ∧ ((convert_file env registry filename "").out = RestOut.httpError 400 "output_format is required"
        ∧ (handle_convert_file env registry none (some ofmt) (some fc)).out
            = MCPOut.err (-32602) "Missing required parameters") := by
  have hne : ext ≠ "" := ne_empty_of_dot ext hdot
  have hdot2 : ensureDot ext = ext := ensureDot_of_dot ext hdot
  refine ⟨?_, ?_, ?_, ?_, ?_⟩
  · cases hf : findConverter ext (ensureDot ofmt) registry with
    | none =>
      simp [handle_convert_file, convert_file, truthy, hne, hofmt, hfc, hdot2, hext, hf,
        mcpSeverity, restSeverity]
    | some m =>
      cases hsi : env.stageInput <;> cases hso : env.stageOutput <;>
        cases hcr : env.convertResult <;>
          simp [handle_convert_file, convert_file, truthy, hne, hofmt, hfc, hdot2, hext, hf,
            hdec, hread, hsi, hso, hcr, mcpSeverity, restSeverity]
  · intro msg m hcr hf hsi hso
    constructor
    · simp [convert_file, hofmt, hext, hf, hsi, hso, hcr]
    · simp [handle_convert_file, truthy, hne, hofmt, hfc, hdot2, hf, hdec, hsi, hso, hcr]
  · intro msg m hsi hf
    refine ⟨?_, ?_, ?_⟩
    · simp [convert_file, hofmt, hext, hf, hsi]
    · simp [convert_file, hofmt, hext, hf, hsi, restSeverity]
    · simp [handle_convert_file, truthy, hne, hofmt, hfc, hdot2, hf, hdec, hsi]
  · intro hf
    constructor
    · simp [convert_file, hofmt, hext, hf]
    · simp [handle_convert_file, truthy, hne, hofmt, hfc, hdot2, hf]
  · constructor
    · simp [convert_file]
    · simp [handle_convert_file, truthy]

set_option maxRecDepth 8000 in
/-- Claim C5 witness: severity parity at a concrete matching request pair. -/
theorem error_severity_parity_witness :
    mcpSeverity (handle_convert_file envOK demoRegistry (some ".png") (some "jpg") (some "Qg==")).out
        = restSeverity (convert_file envOK demoRegistry "a.png" "jpg").out :=
  (error_severity_parity envOK demoRegistry "a.png" "jpg" "Qg==" ".png" [66] [66]
    (by decide) (by decide) (by decide) (by decide) rfl rfl).1

end Conv

namespace Conv

theorem mem_supported_conversions {mods : List Module} {m : Module} {i o : String}
    (hm : m ∈ mods) (hi : i ∈ m.inputs) (ho : o ∈ m.outputs) (hne : i ≠ o) :
    (i ++ " to " ++ o) ∈ supported_conversions mods := by
  simp only [supported_conversions, List.mem_flatMap, List.mem_filterMap]
  exact ⟨m, hm, i, hi, o, ho, by simp [hne]⟩

theorem mem_infix_joinStr (sep x : String) (l : List String) (hx : x ∈ l) :
    x.data <:+: (joinStr sep l).data := by
  induction l with
  | nil => cases hx
  | cons a t ih =>
    cases t with
    | nil =>
      rcases List.mem_cons.mp hx with rfl | h
      · exact List.infix_refl _
      · cases h
    | cons b t2 =>
      rcases List.mem_cons.mp hx with rfl | h
      · refine ⟨[], (sep ++ joinStr sep (b :: t2)).data, ?_⟩
        simp [joinStr, strData_append, List.append_assoc]
      · obtain ⟨s, t3, hst⟩ := ih h
        refine ⟨(a ++ sep).data ++ s, t3, ?_⟩
        simp only [joinStr, strData_append, List.append_assoc, hst]

set_option maxRecDepth 40000 in
/-- Claim C7 counterexample: with the demo registry (one module supporting
.png to .jpg) the convert_file tool description enumerates the pair in its
dotted form ".png to .jpg", so the undotted substring "png to jpg" claimed
by the spec does not occur in it. -/
theorem tools_list_counterexample :
    strContains (convert_file_description demoRegistry) "png to jpg" = false
    ∧ strContains (convert_file_description demoRegistry) ".png to .jpg" = true := by
  decide

/-- Claim C7 (amended): tools/list returns a catalog containing a
convert_file tool whose description enumerates every (input, output) pair
across every registered modules capability descriptor, excluding
same-to-same pairs, each pair appearing as the dotted substring
"INPUT to OUTPUT" of the format identifiers; in particular, with one
registered module supporting .png to .jpg, the description text contains
the substring ".png to .jpg" (not the undotted "png to jpg"). -/
theorem tools_list_amended (mods : List Module) (m : Module) (i o : String)
    (hm : m ∈ mods) (hi : i ∈ m.inputs) (ho : o ∈ m.outputs) (hne : i ≠ o) :
    ∃ t, t ∈ tools_list mods ∧ t.name = "convert_file"
      ∧ strContains t.description (i ++ " to " ++ o) = true := by
  refine ⟨⟨"convert_file", convert_file_description mods⟩, by simp [tools_list], rfl, ?_⟩
  have h1 := mem_supported_conversions hm hi ho hne
  obtain ⟨s, t3, hst⟩ := mem_infix_joinStr ", " (i ++ " to " ++ o) (supported_conversions mods) h1
  have h2 : (i ++ " to " ++ o).data <:+: (convert_file_description mods).data := by
    refine ⟨("Convert files between different formats. Supported conversions: " : String).data ++ s, t3, ?_⟩
    have hh : (convert_file_description mods).data
        = ("Convert files between different formats. Supported conversions: " : String).data
          ++ (joinStr ", " (supported_conversions mods)).data := by
      simp [convert_file_description, strData_append]
    rw [hh, ← hst]
    simp [List.append_assoc]
  simpa [strContains] using h2

set_option maxRecDepth 8000 in
/-- Claim C7 witness: the demo registry description contains ".png to .jpg". -/
theorem tools_list_amended_witness :
    ∃ t, t ∈ tools_list demoRegistry ∧ t.name = "convert_file"
      ∧ strContains t.description (".png" ++ " to " ++ ".jpg") = true :=
  tools_list_amended demoRegistry demoModule ".png" ".jpg"
    (by decide) (by decide) (by decide) (by decide)

/-- Claim C8: a successful REST POST /convert returns the converted bytes as
a downloadable binary response whose filename is the uploaded files base
name plus the normalized output extension. -/
theorem rest_success_filename (env : Env) (registry : List Module) (m : Module)
    (filename outfmt : String) (hout : outfmt ≠ "")
    (hfind : findConverter (restInputFormat filename) (ensureDot outfmt) registry = some m)
    (h1 : env.stageInput = StageOutcome.ok) (h2 : env.stageOutput = StageOutcome.ok)
    (h3 : env.convertResult = none) :
    convert_file env registry filename outfmt
      = ⟨RestOut.fileResponse env.outputTempName ((splitext filename).1 ++ ensureDot outfmt) "application/octet-stream",
         [Effect.stageInput, Effect.stageOutput, Effect.convertCall m.name], false, true⟩ := by
  simp [convert_file, hout, hfind, h1, h2, h3]

set_option maxRecDepth 8000 in
/-- Claim C8 witness: an upload named a.png with output_format jpg produces
a response with filename a.jpg. -/
theorem rest_success_filename_witness :
    convert_file envOK demoRegistry "a.png" "jpg"
      = ⟨RestOut.fileResponse "/tmp/out" "a.jpg" "application/octet-stream",
         [Effect.stageInput, Effect.stageOutput, Effect.convertCall "image_converter"], false, true⟩ := by
  have h := rest_success_filename envOK demoRegistry demoModule "a.png" "jpg"
    (by decide) (by decide) rfl rfl rfl
  exact h

set_option maxRecDepth 8000 in
/-- Claim C9 counterexample: the header "Bearer Bearer " has a non-empty
credential after stripping the "Bearer " prefix once (namely "Bearer "),
so the claim requires status 200, but the handler removes every occurrence
of "Bearer " and returns 401. -/
theorem validate_token_counterexample :
    validate_token (some "Bearer Bearer ") = (401, none)
    ∧ "Bearer Bearer ".drop 7 ≠ "" := by
  decide

/-- Claim C9 (amended): for requests carrying an Authorization header, the
handler strips every occurrence of "Bearer " (not only the leading one)
whenever the header starts with "Bearer "; it returns 200 with the
associated identity exactly when the remaining credential is non-empty and
401 Unauthorized when it is empty.  (A request without the header is
rejected by request validation with 422 before the handler runs.) -/
theorem validate_token_amended (h : String) :
    (stripAllBearer h ≠ "" → validate_token (some h) = (200, some "919876543210"))
    ∧ (stripAllBearer h = "" → validate_token (some h) = (401, none)) := by
  by_cases hb : strStartsWith h "Bearer " = true
  · constructor
    · intro hne
      have hl : replaceBearerAll h.data ≠ [] := by
        simpa [stripAllBearer, hb, strMk_eq_empty_iff] using hne
      simp [validate_token, hb, hl]
    · intro he
      have hl : replaceBearerAll h.data = [] := by
        simpa [stripAllBearer, hb, strMk_eq_empty_iff] using he
      simp [validate_token, hb, hl]
  · constructor
    · intro hne
      have hl : h.data ≠ [] := by
        simpa [stripAllBearer, hb, str_eq_empty_iff] using hne
      simp [validate_token, hb, hl]
    · intro he
      have hl : h.data = [] := by
        simpa [stripAllBearer, hb, str_eq_empty_iff] using he
      simp [validate_token, hb, hl]

set_option maxRecDepth 8000 in
/-- Claim C9 witness: a well-formed bearer header yields 200 with the
identity, and an empty header yields 401. -/
theorem validate_token_amended_witness :
    validate_token (some "Bearer abc") = (200, some "919876543210")
    ∧ validate_token (some "") = (401, none) :=
  ⟨(validate_token_amended "Bearer abc").1 (by decide),
   (validate_token_amended "").2 (by decide)⟩

end Conv
